import Mathlib

/-!
Shallow embedding of the MENA Dominion Bank client core (`script.js`): the
credential-verification scan of `processLogin`, the global session state with
`handleAuthSuccess`, and the `setInterval` auto-sync (reconciliation) callback.
Network and DOM effects are made explicit: the outcome of the single
`fetch`/`json()` pipeline is an input value, user-visible notifications and
renderer calls are outputs.
-/

set_option autoImplicit false

/-- A JavaScript primitive as it can occur in the `password` cell of the
spreadsheet vault: a string, or a number for an all-digit secret.  `toStr`
embeds the JavaScript `.toString()` coercion applied at
`u.password.toString()` (script.js line 69).  Numbers are modelled as
integers; the source never does arithmetic on the secret. -/
inductive JsPrim where
  | str : String → JsPrim
  | num : Int → JsPrim
deriving DecidableEq

/-- JavaScript `.toString()` on the stored secret: a string is returned as is,
a number is printed in decimal. -/
def JsPrim.toStr : JsPrim → String
  | .str s => s
  | .num n => toString n

/-- Whitespace recognised by the embedding of JavaScript
`String.prototype.trim` (the JS definition additionally strips rarer Unicode
space code points; every string in the source and in the claims is ASCII). -/
def isWsChar (c : Char) : Bool :=
  c == ' ' || c == '\t' || c == '\n' || c == '\r'

/-- Embedding of JavaScript `s.trim()` (script.js lines 68-69): remove leading
and trailing whitespace. -/
def jsTrim (s : String) : String :=
  String.mk (List.rdropWhile isWsChar (List.dropWhile isWsChar s.data))

/-- One row of the `userDatabase` sheet, restricted to the columns the core
engine reads: `username` (column A, always a string in the source, which calls
`.trim()` on it), `password` (column B, possibly numeric), plus the display
fields that make record identity observable. -/
structure UserRecord where
  username : String
  password : JsPrim
  fullName : String
  balance : Int
deriving DecidableEq

/-- The `userDatabase` field of the parsed response body: either a proper
array of rows, or present but not an array (in which case `.find` is not a
function and the source throws inside its `try`). -/
inductive VaultField where
  | arr : List UserRecord → VaultField
  | notArr : VaultField
deriving DecidableEq

/-- The body of a resolved `fetch`: `invalid` when `response.json()` rejects
(body is not JSON), otherwise a JSON object whose `userDatabase` field may be
absent. -/
inductive JsonBody where
  | invalid : JsonBody
  | obj : Option VaultField → JsonBody
deriving DecidableEq

/-- Outcome of one `fetch(CONFIG.API_URL)`: the promise rejects (network
failure or timeout), or it resolves with an HTTP status code and a body.
`fetch` does not reject on a non-success status, so the status is carried
explicitly. -/
inductive HttpResult where
  | netFail : HttpResult
  | resp : Nat → JsonBody → HttpResult
deriving DecidableEq

/-- Cause of a failure of the fetch-and-extract pipeline.  The source never
inspects the cause: every one of these lands in the same `catch` block. -/
inductive FetchError where
  | network : FetchError
  | badJson : FetchError
  | missingField : FetchError
  | notSequence : FetchError
deriving DecidableEq

/-- Embedding of script.js lines 60-64 (and identically 167-169): `await
fetch(...)`, `await response.json()`, `result.userDatabase`, and the
subsequent `.find` call on that field.  A rejected promise or a `TypeError`
from calling `.find` on a missing/non-array field propagates to the enclosing
`catch`; the HTTP status of the response is never read. -/
def mdbFetchParse : HttpResult → Except FetchError (List UserRecord)
  | .netFail => .error .network
  | .resp _ .invalid => .error .badJson
  | .resp _ (.obj none) => .error .missingField
  | .resp _ (.obj (some .notArr)) => .error .notSequence
  | .resp _ (.obj (some (.arr rs))) => .ok rs

/-- Embedding of the authentication scan, script.js lines 67-70:
`vaultData.find(u => u.username.trim() === userField.value.trim() &&
u.password.toString() === passField.value.trim())`.  Note that the stored
secret is compared untrimmed while the submitted secret is trimmed. -/
def verify (records : List UserRecord) (userValue passValue : String) :
    Option UserRecord :=
  records.find? fun u =>
    (jsTrim u.username == jsTrim userValue) &&
      (u.password.toStr == jsTrim passValue)

/-- The global session state, script.js lines 24-28.  `lastSync` holds the
time (`new Date()`) of the last successful login, modelled as a natural
number. -/
structure Session where
  isAuthenticated : Bool
  userData : Option UserRecord
  lastSync : Option Nat
deriving DecidableEq

/-- Lines 24-28: the session starts unauthenticated, holding no record and no
sync time. -/
def initialSession : Session :=
  { isAuthenticated := false, userData := none, lastSync := none }

/-- Modelled from the spec: the Session Manager accessor `currentRecord()`
(spec section 4.3) — the held record when `Authenticated`, nothing when
`Anonymous`.  The source has no such function; it reads
`activeSession.userData` directly after checking `activeSession.isAuthenticated`,
which this accessor packages. -/
def currentRecord (s : Session) : Option UserRecord :=
  if s.isAuthenticated then s.userData else none

/-- Embedding of `handleAuthSuccess` (script.js lines 87-90): all three
session fields are assigned in one synchronous run, with `lastSync` set to the
current time. -/
def handleAuthSuccess (s : Session) (data : UserRecord) (now : Nat) : Session :=
  { s with isAuthenticated := true, userData := some data, lastSync := some now }

/-- Modelled from the spec: `reset()` (spec section 4.3).  The source's
`logout` (line 160) reloads the page, which restarts the process with the
initial session value; the spec models this as an explicit transition back to
`Anonymous`. -/
def reset (_s : Session) : Session := initialSession

/-- The user-visible notifications `processLogin` can raise via
`showNotification` (script.js lines 52, 75, 81). -/
inductive Notification where
  | credentialsRequired : Notification
  | accessDenied : Notification
  | systemError : Notification
deriving DecidableEq

/-- Observable outcome of one `processLogin` call: the session after the
call, the notification shown (if any), whether a network request was issued,
and whether `renderDashboard` was invoked. -/
structure LoginResult where
  session : Session
  notice : Option Notification
  fetchPerformed : Bool
  rendered : Bool
deriving DecidableEq

/-- Embedding of `processLogin` (script.js lines 46-84).  `userValue` and
`passValue` are the raw input-field values; `net` is the outcome of the one
`fetch`; `now` is the clock value `handleAuthSuccess` reads.  The guard on
line 51 tests JavaScript truthiness of the raw values, i.e. emptiness; any
failure of the fetch/parse/extract pipeline is caught on line 79 and reported
as the single vault-unavailable message. -/
def processLogin (userValue passValue : String) (net : HttpResult)
    (s : Session) (now : Nat) : LoginResult :=
  if userValue = "" ∨ passValue = "" then
    { session := s, notice := some .credentialsRequired,
      fetchPerformed := false, rendered := false }
  else
    match mdbFetchParse net with
    | .error _ =>
      { session := s, notice := some .systemError,
        fetchPerformed := true, rendered := false }
    | .ok vaultData =>
      match verify vaultData userValue passValue with
      | some userFound =>
        { session := handleAuthSuccess s userFound now, notice := none,
          fetchPerformed := true, rendered := true }
      | none =>
        { session := s, notice := some .accessDenied,
          fetchPerformed := true, rendered := false }

/-- Observable outcome of one auto-sync tick: the session after the tick,
whether a network request was issued, and whether `renderDashboard` was
invoked. -/
structure TickResult where
  session : Session
  fetchPerformed : Bool
  rendered : Bool
deriving DecidableEq

/-- Embedding of the auto-sync callback (script.js lines 164-180).  When
authenticated it fetches, scans for `u.username ===
activeSession.userData.username` (no trimming here), and on a hit overwrites
`userData` and re-renders; `lastSync` is not written.  Every failure is
swallowed by the `catch` on line 176, so the function is total and the
session is untouched on failure.  When `userData` is `null` while
authenticated (unreachable from the initial state), the JS either finds
nothing (empty array) or throws a `TypeError` that the `catch` absorbs; both
leave the session unchanged with nothing rendered, as modelled. -/
def tick (net : HttpResult) (s : Session) : TickResult :=
  if s.isAuthenticated then
    match mdbFetchParse net with
    | .error _ => { session := s, fetchPerformed := true, rendered := false }
    | .ok records =>
      match s.userData with
      | none => { session := s, fetchPerformed := true, rendered := false }
      | some held =>
        match records.find? (fun u => u.username == held.username) with
        | some freshData =>
          { session := { s with userData := some freshData },
            fetchPerformed := true, rendered := true }
        | none => { session := s, fetchPerformed := true, rendered := false }
  else { session := s, fetchPerformed := false, rendered := false }

/-- `CONFIG.REFRESH_RATE` (script.js line 19): the auto-sync period in
milliseconds. -/
def REFRESH_RATE : Nat := 30000

/-- Firing time of the n-th auto-sync tick.  Embeds the driver on lines
164/180, `setInterval(async () => {...}, CONFIG.REFRESH_RATE)`: the host
timer fires the callback at fixed multiples of the period, and a callback
that is still awaiting its `fetch` (which suspends, freeing the event loop)
does not delay or cancel the next firing — the source has no busy guard. -/
def tickStart (n : Nat) : Nat := n * REFRESH_RATE

/-- Tick `n` is still awaiting its network call at time `t`, under the
schedule in which the awaited call of tick `n` takes `dur n` milliseconds. -/
def tickInFlight (dur : Nat → Nat) (n t : Nat) : Prop :=
  tickStart n ≤ t ∧ t < tickStart n + dur n

/-- Some tick is still awaiting its network call at the moment the next
scheduled tick is also in flight, under the completion schedule `dur`. -/
def ticksOverlap (dur : Nat → Nat) : Prop :=
  ∃ n t, tickInFlight dur n t ∧ tickInFlight dur (n + 1) t

/-- A completion schedule in which tick 0's network call takes two full
periods and every later call returns quickly. -/
def overlapDur : Nat → Nat := fun n => if n = 0 then 2 * REFRESH_RATE else 1

/-- A concrete vault row used by witnesses: the scenario record of spec
section 8. -/
def recPlain : UserRecord :=
  { username := "alice", password := .str "1234", fullName := "Alice A", balance := 500 }

/-- A vault row whose stored secret carries surrounding whitespace. -/
def recPadded : UserRecord :=
  { username := "alice", password := .str " 1234 ", fullName := "Alice A", balance := 500 }

/-- A vault row with a different identity key. -/
def recBob : UserRecord :=
  { username := "bob", password := .str "pw", fullName := "Bob B", balance := 10 }

/-- A later vault row duplicating `recPlain`'s identity key and secret. -/
def recDup : UserRecord :=
  { username := "alice", password := .str "1234", fullName := "Alice Dup", balance := 0 }

/-- The `recPlain` row as re-fetched after an admin edit: same identity key,
new balance. -/
def recFresh : UserRecord :=
  { username := "alice", password := .str "1234", fullName := "Alice A", balance := 900 }

/-- A successful fetch returning exactly `recPlain`. -/
def netOkPlain : HttpResult := .resp 200 (.obj (some (.arr [recPlain])))

/-- A successful fetch returning `recBob` then the edited `recFresh`. -/
def netFresh : HttpResult := .resp 200 (.obj (some (.arr [recBob, recFresh])))

/-- A successful fetch whose collection lacks the held identity key. -/
def netBobOnly : HttpResult := .resp 200 (.obj (some (.arr [recBob])))

/-- An authenticated session holding `recPlain`, last synced at time 5. -/
def sAuth : Session :=
  { isAuthenticated := true, userData := some recPlain, lastSync := some 5 }

/-- The session invariant of claim C10: the `isAuthenticated` flag is set
exactly when a record is held, and an authenticated session always carries a
sync time. -/
def sessionInv (s : Session) : Prop :=
  (s.isAuthenticated = true ↔ s.userData.isSome = true) ∧
  (s.isAuthenticated = true → s.lastSync.isSome = true)

/-- Removing leading whitespace, then trailing whitespace, leaves a list with
no leading whitespace to remove. -/
theorem dropWhile_rdropWhile_self {α : Type} {p : α → Bool} {l : List α}
    (h : List.dropWhile p l = l) :
    List.dropWhile p (List.rdropWhile p l) = List.rdropWhile p l := by
  rw [List.dropWhile_eq_self_iff] at h ⊢
  intro hl
  have hpre : List.rdropWhile p l <+: l := List.rdropWhile_prefix p l
  have hlen : 0 < l.length := lt_of_lt_of_le hl hpre.length_le
  have hget : (List.rdropWhile p l).get ⟨0, hl⟩ = l.get ⟨0, hlen⟩ := by
    simp only [List.get_eq_getElem]
    exact hpre.getElem hl
  rw [hget]
  exact h hlen

/-- JavaScript `trim` is idempotent: trimming a trimmed string changes
nothing. -/
theorem jsTrim_idem (s : String) : jsTrim (jsTrim s) = jsTrim s := by
  unfold jsTrim
  have h1 : List.dropWhile isWsChar (List.dropWhile isWsChar s.data) =
      List.dropWhile isWsChar s.data :=
    List.dropWhile_idempotent isWsChar s.data
  have h2 := dropWhile_rdropWhile_self h1
  simp only [String.data]
  rw [h2, List.rdropWhile_idempotent isWsChar _]

/-- Claim C1, counterexample: a record whose stored secret has surrounding
whitespace is not returned by `verify` on its own credentials.  The code
trims the submitted secret (line 69) but compares the stored secret
untrimmed, so `" 1234 "` never equals `jsTrim " 1234 " = "1234"`. -/
theorem verify_trimmed_secret_cex :
    verify [recPadded] (jsTrim recPadded.username) recPadded.password.toStr =
      none := by
  decide

/-- Claim C1 (amended): for every record whose secret, coerced to a string,
has no surrounding whitespace, `verify` called with that record's trimmed
identity key and that secret string returns the first record in collection
order matching those credentials (trimmed stored key equal to the submitted
trimmed key, stored secret string equal to the submitted secret) — in
particular the record itself when no earlier record matches, and the first
occurrence when the collection has duplicates. -/
theorem verify_finds_first (l₁ l₂ : List UserRecord) (r : UserRecord)
    (hsec : jsTrim r.password.toStr = r.password.toStr)
    (hbefore : ∀ u ∈ l₁,
      ¬(jsTrim u.username = jsTrim r.username ∧ u.password.toStr = r.password.toStr)) :
    verify (l₁ ++ r :: l₂) (jsTrim r.username) r.password.toStr = some r := by
  unfold verify
  simp only [jsTrim_idem, hsec]
  rw [List.find?_append]
  have h₁ : (l₁.find? fun u =>
      (jsTrim u.username == jsTrim r.username) &&
        (u.password.toStr == r.password.toStr)) = none := by
    rw [List.find?_eq_none]
    intro u hu
    simp only [Bool.and_eq_true, beq_iff_eq]
    exact fun hc => hbefore u hu hc
  rw [h₁]
  rw [List.find?_cons_of_pos _ (by simp)]
  simp

/-- Claim C1, witness: in the collection `[recBob, recPlain, recDup]`, where
`recDup` duplicates `recPlain`'s credentials later in order, `verify` with
`recPlain`'s trimmed key and secret string returns `recPlain`, the first
occurrence. -/
theorem verify_finds_first_witness :
    verify ([recBob] ++ recPlain :: [recDup]) (jsTrim recPlain.username)
      recPlain.password.toStr = some recPlain :=
  verify_finds_first [recBob] [recDup] recPlain (by decide) (by decide)

/-- Claim C2, counterexample: the pair ("alice", " 1234 ") is not held by any
record — `recPlain` stores secret "1234", not " 1234 " — yet `verify` returns
`recPlain` and the login attempt succeeds with no notification, because the
code trims the submitted secret before comparing. -/
theorem verify_absent_pair_cex :
    ¬(jsTrim recPlain.username = jsTrim "alice" ∧
        recPlain.password.toStr = " 1234 ") ∧
    verify [recPlain] "alice" " 1234 " = some recPlain ∧
    (processLogin "alice" " 1234 " netOkPlain initialSession 0).notice =
      none := by
  decide

/-- Claim C2 (amended): for every pair of non-empty credentials such that no
record's trimmed identity key and stored secret string match the submitted
trimmed identity key and trimmed secret, `verify` returns nothing and the
login attempt reports the access-denied (invalid credentials) notification,
leaving the session unchanged and performing the one fetch. -/
theorem verify_no_match_denied (records : List UserRecord)
    (userValue passValue : String) (net : HttpResult) (s : Session) (now : Nat)
    (hu : ¬userValue = "") (hp : ¬passValue = "")
    (hnet : mdbFetchParse net = .ok records)
    (hnone : ∀ u ∈ records,
      ¬(jsTrim u.username = jsTrim userValue ∧ u.password.toStr = jsTrim passValue)) :
    verify records userValue passValue = none ∧
    processLogin userValue passValue net s now =
      { session := s, notice := some .accessDenied,
        fetchPerformed := true, rendered := false } := by
  have hv : verify records userValue passValue = none := by
    unfold verify
    rw [List.find?_eq_none]
    intro u hu'
    simp only [Bool.and_eq_true, beq_iff_eq]
    exact fun hc => hnone u hu' hc
  refine ⟨hv, ?_⟩
  unfold processLogin
  rw [if_neg (by tauto), hnet]
  simp only [hv]

/-- Claim C2, witness: the wrong secret "9999" against the vault holding
`recPlain` is rejected with the access-denied notification and the session
left at its initial value. -/
theorem verify_no_match_denied_witness :
    verify [recPlain] "alice" "9999" = none ∧
    processLogin "alice" "9999" netOkPlain initialSession 0 =
      { session := initialSession, notice := some .accessDenied,
        fetchPerformed := true, rendered := false } :=
  verify_no_match_denied [recPlain] "alice" "9999" netOkPlain initialSession 0
    (by decide) (by decide) rfl (by decide)

/-- Claim C3: `processLogin` mutates the session atomically.  Whenever a
notification is raised (empty-credential guard, no credential match, or
transport/parse failure) the session is exactly the session before the call;
when no notification is raised, verification succeeded and the record,
authenticated flag and sync time are all set together; hence an attempt
started with `currentRecord` undefined never ends with it defined after a
failure. -/
theorem processLogin_atomic (userValue passValue : String) (net : HttpResult)
    (s : Session) (now : Nat) :
    ((processLogin userValue passValue net s now).notice.isSome = true →
        (processLogin userValue passValue net s now).session = s) ∧
    ((processLogin userValue passValue net s now).notice = none →
        ∃ found vault, mdbFetchParse net = .ok vault ∧
          verify vault userValue passValue = some found ∧
          (processLogin userValue passValue net s now).session =
            { isAuthenticated := true, userData := some found,
              lastSync := some now }) ∧
    (currentRecord s = none →
        (processLogin userValue passValue net s now).notice.isSome = true →
        currentRecord (processLogin userValue passValue net s now).session = none) := by
  by_cases hg : userValue = "" ∨ passValue = ""
  · have hPL : processLogin userValue passValue net s now =
        { session := s, notice := some .credentialsRequired,
          fetchPerformed := false, rendered := false } := by
      unfold processLogin
      rw [if_pos hg]
    rw [hPL]
    exact ⟨fun _ => rfl, fun h => by simp at h, fun hc _ => hc⟩
  · cases hE : mdbFetchParse net with
    | error e =>
      have hPL : processLogin userValue passValue net s now =
          { session := s, notice := some .systemError,
            fetchPerformed := true, rendered := false } := by
        unfold processLogin
        rw [if_neg hg]
        simp only [hE]
      rw [hPL]
      exact ⟨fun _ => rfl, fun h => by simp at h, fun hc _ => hc⟩
    | ok vault =>
      cases hV : verify vault userValue passValue with
      | none =>
        have hPL : processLogin userValue passValue net s now =
            { session := s, notice := some .accessDenied,
              fetchPerformed := true, rendered := false } := by
          unfold processLogin
          rw [if_neg hg]
          simp only [hE, hV]
        rw [hPL]
        exact ⟨fun _ => rfl, fun h => by simp at h, fun hc _ => hc⟩
      | some found =>
        have hPL : processLogin userValue passValue net s now =
            { session :=
                { isAuthenticated := true, userData := some found,
                  lastSync := some now },
              notice := none, fetchPerformed := true, rendered := true } := by
          unfold processLogin
          rw [if_neg hg]
          simp only [hE, hV]
          rfl
        rw [hPL]
        exact ⟨fun h => by simp at h, fun _ => ⟨found, vault, rfl, hV, rfl⟩,
          fun _ h => by simp at h⟩

/-- Claim C3, witness: a failed attempt (wrong secret) from the initial
anonymous session leaves the session exactly at its initial value. -/
theorem processLogin_atomic_witness :
    (processLogin "alice" "wrong" netOkPlain initialSession 3).session =
      initialSession :=
  (processLogin_atomic "alice" "wrong" netOkPlain initialSession 3).1 (by decide)

/-- Claim C4, counterexample: a response with non-success HTTP status 500 but
a well-formed body is not a failure at all — the pipeline yields the records
and the login authenticates, because the source never inspects
`response.status` or `response.ok`. -/
theorem status_ignored_cex :
    mdbFetchParse (.resp 500 (.obj (some (.arr [recPlain])))) = .ok [recPlain] ∧
    (processLogin "alice" "1234" (.resp 500 (.obj (some (.arr [recPlain]))))
      initialSession 0).notice = none ∧
    (processLogin "alice" "1234" (.resp 500 (.obj (some (.arr [recPlain]))))
      initialSession 0).session.isAuthenticated = true := by
  refine ⟨rfl, ?_, ?_⟩ <;> decide

/-- Claim C4 (amended): the record-store read fails on network
failure/timeout, on an unparseable response body, and when the expected
collection field is absent or not a sequence — but the HTTP status is never
inspected, so a well-formed body succeeds regardless of status; the login
attempt surfaces every one of these failures as the single
vault-unavailable notification with the session unchanged. -/
theorem fetch_failure_taxonomy :
    (∀ st rs, mdbFetchParse (.resp st (.obj (some (.arr rs)))) = .ok rs) ∧
    (mdbFetchParse .netFail = .error .network) ∧
    (∀ st, mdbFetchParse (.resp st .invalid) = .error .badJson) ∧
    (∀ st, mdbFetchParse (.resp st (.obj none)) = .error .missingField) ∧
    (∀ st, mdbFetchParse (.resp st (.obj (some .notArr))) = .error .notSequence) ∧
    (∀ userValue passValue net s now e, ¬userValue = "" → ¬passValue = "" →
      mdbFetchParse net = .error e →
      processLogin userValue passValue net s now =
        { session := s, notice := some .systemError,
          fetchPerformed := true, rendered := false }) := by
  refine ⟨fun _ _ => rfl, rfl, fun _ => rfl, fun _ => rfl, fun _ => rfl, ?_⟩
  intro uv pv net s now e hu hp hE
  unfold processLogin
  rw [if_neg (by tauto)]
  simp only [hE]

/-- Claim C4, witness: a network failure during login surfaces as the
vault-unavailable notification and leaves the initial session unchanged. -/
theorem fetch_failure_taxonomy_witness :
    processLogin "alice" "1234" .netFail initialSession 0 =
      { session := initialSession, notice := some .systemError,
        fetchPerformed := true, rendered := false } :=
  fetch_failure_taxonomy.2.2.2.2.2 "alice" "1234" .netFail initialSession 0
    .network (by decide) (by decide) rfl

/-- Claim C5: an auto-sync tick taken while the session is not authenticated
performs no network call, renders nothing, and leaves the session exactly
unchanged. -/
theorem tick_anonymous_noop (net : HttpResult) (s : Session)
    (h : s.isAuthenticated = false) :
    tick net s = { session := s, fetchPerformed := false, rendered := false } := by
  unfold tick
  rw [h]
  simp

/-- Claim C5, witness: a tick from the initial anonymous session with the
store unreachable performs no network call and changes nothing. -/
theorem tick_anonymous_noop_witness :
    tick .netFail initialSession =
      { session := initialSession, fetchPerformed := false, rendered := false } :=
  tick_anonymous_noop .netFail initialSession rfl

/-- Claim C6: an authenticated tick whose fetch/parse fails, or whose fetched
collection holds no record with the held identity key, leaves the entire
session — in particular the held record, byte for byte — unchanged and
renders nothing.  `tick` is a total function: the failure is absorbed by the
embedded `catch` and never propagated, so the loop can always take its next
tick from the same state. -/
theorem tick_failure_frame (net : HttpResult) (s : Session) (held : UserRecord)
    (hauth : s.isAuthenticated = true) (hheld : s.userData = some held)
    (hfail : (∃ e, mdbFetchParse net = .error e) ∨
      (∃ vault, mdbFetchParse net = .ok vault ∧
        ∀ u ∈ vault, u.username ≠ held.username)) :
    tick net s = { session := s, fetchPerformed := true, rendered := false } := by
  unfold tick
  rw [hauth, if_pos rfl]
  rcases hfail with ⟨e, he⟩ | ⟨vault, hok, hnone⟩
  · simp only [he]
  · have h₁ : (vault.find? fun u => u.username == held.username) = none := by
      rw [List.find?_eq_none]
      intro u hu
      simpa using hnone u hu
    simp only [hok, hheld, h₁]

/-- Claim C6, witness: a tick for the session holding `recPlain` against a
store response lacking the identity key "alice" leaves the session — held
record included — unchanged. -/
theorem tick_failure_frame_witness :
    tick netBobOnly sAuth =
      { session := sAuth, fetchPerformed := true, rendered := false } :=
  tick_failure_frame netBobOnly sAuth recPlain rfl rfl
    (Or.inr ⟨[recBob], rfl, by decide⟩)

/-- Claim C7, counterexample: a tick that does find the held identity key
replaces the held record and re-renders, yet `lastSync` (syncTime) keeps its
pre-tick value `some 5` — the auto-sync callback never writes `lastSync`
(script.js line 172 assigns only `userData`), refuting "syncTime is
updated". -/
theorem tick_no_sync_update_cex :
    (tick netFresh sAuth).session.userData = some recFresh ∧
    ¬(tick netFresh sAuth).session.userData = sAuth.userData ∧
    (tick netFresh sAuth).rendered = true ∧
    (tick netFresh sAuth).session.lastSync = sAuth.lastSync := by
  decide

/-- Claim C7 (amended): on an authenticated tick whose fetched collection
contains a record with the held identity key, the held record becomes the
first such fetched record and the renderer is signalled to re-project; the
authenticated flag and syncTime are left unchanged (the tick does not update
syncTime). -/
theorem tick_replaces_record (net : HttpResult) (s : Session)
    (held fresh : UserRecord) (l₁ l₂ : List UserRecord)
    (hauth : s.isAuthenticated = true) (hheld : s.userData = some held)
    (hnet : mdbFetchParse net = .ok (l₁ ++ fresh :: l₂))
    (hfirst : ∀ u ∈ l₁, u.username ≠ held.username)
    (hmatch : fresh.username = held.username) :
    tick net s =
      { session := { s with userData := some fresh },
        fetchPerformed := true, rendered := true } := by
  unfold tick
  rw [hauth, if_pos rfl]
  have h₁ : (l₁.find? fun u => u.username == held.username) = none := by
    rw [List.find?_eq_none]
    intro u hu
    simpa using hfirst u hu
  have h₂ : ((l₁ ++ fresh :: l₂).find? fun u => u.username == held.username) =
      some fresh := by
    rw [List.find?_append, h₁, List.find?_cons_of_pos _ (by simp [hmatch])]
    simp
  simp only [hnet, hheld, h₂]

/-- Claim C7, witness: the tick for the session holding `recPlain`, against a
fetch returning `recBob` then the edited row `recFresh`, replaces the held
record with `recFresh` and re-renders, leaving the other session fields as
they were. -/
theorem tick_replaces_record_witness :
    tick netFresh sAuth =
      { session := { sAuth with userData := some recFresh },
        fetchPerformed := true, rendered := true } :=
  tick_replaces_record netFresh sAuth recPlain recFresh [recBob] [] rfl rfl rfl
    (by decide) rfl

/-- Claim C8, counterexample: under the schedule in which tick 0's network
call takes two full periods, ticks 0 and 1 are both in flight at time 30000 —
the bare `setInterval` driver (no busy guard, fixed-period firing regardless
of a pending await) neither skips nor serializes the overlapping tick. -/
theorem ticks_overlap_cex :
    tickInFlight overlapDur 0 30000 ∧ tickInFlight overlapDur 1 30000 ∧
    ticksOverlap overlapDur := by
  refine ⟨?_, ?_, 0, 30000, ?_, ?_⟩ <;>
    norm_num [tickInFlight, tickStart, overlapDur, REFRESH_RATE]

/-- Claim C8 (amended): consecutive auto-sync ticks never overlap provided
every network call completes within the refresh period; the source has no
guard, so this bound on the schedule — absent from the code — is exactly what
non-overlap requires. -/
theorem ticks_no_overlap_of_fast (dur : Nat → Nat)
    (h : ∀ n, dur n ≤ REFRESH_RATE) : ¬ticksOverlap dur := by
  intro hov
  obtain ⟨n, t, hin1, hin2⟩ := hov
  unfold tickInFlight tickStart REFRESH_RATE at hin1 hin2
  have hd := h n
  unfold REFRESH_RATE at hd
  omega

/-- Claim C8, witness: under the schedule where every network call returns
instantly, no two ticks overlap. -/
theorem ticks_no_overlap_of_fast_witness : ¬ticksOverlap fun _ => 0 :=
  ticks_no_overlap_of_fast (fun _ => 0) fun _ => Nat.zero_le _

/-- Claim C9: when either submitted credential is the empty string, the guard
on script.js line 51 fires: no network call is made, the credentials-required
error is shown, nothing is rendered, and the session is exactly unchanged. -/
theorem processLogin_empty_guard (userValue passValue : String)
    (net : HttpResult) (s : Session) (now : Nat)
    (h : userValue = "" ∨ passValue = "") :
    processLogin userValue passValue net s now =
      { session := s, notice := some .credentialsRequired,
        fetchPerformed := false, rendered := false } := by
  unfold processLogin
  rw [if_pos h]

/-- Claim C9, witness: an empty identity key triggers the guard with no fetch
and no session change. -/
theorem processLogin_empty_guard_witness :
    processLogin "" "1234" .netFail initialSession 0 =
      { session := initialSession, notice := some .credentialsRequired,
        fetchPerformed := false, rendered := false } :=
  processLogin_empty_guard "" "1234" .netFail initialSession 0 (Or.inl rfl)

/-- Claim C10: the session invariant — authenticated iff a record is held,
and authenticated implies a sync time is set — holds at the initial state and
is preserved by `processLogin`, by the auto-sync `tick`, and by `reset`; under
the invariant, `currentRecord` is defined exactly in the authenticated
state. -/
theorem session_invariant_preserved :
    sessionInv initialSession ∧
    (∀ userValue passValue net s now, sessionInv s →
      sessionInv (processLogin userValue passValue net s now).session) ∧
    (∀ net s, sessionInv s → sessionInv (tick net s).session) ∧
    (∀ s, sessionInv (reset s)) ∧
    (∀ s, sessionInv s →
      ((currentRecord s).isSome = true ↔ s.isAuthenticated = true)) := by
  refine ⟨?_, ?_, ?_, ?_, ?_⟩
  · exact ⟨by simp [initialSession], by simp [initialSession]⟩
  · intro uv pv net s now hs
    unfold processLogin
    split
    · exact hs
    · split
      · exact hs
      · split
        · exact ⟨by simp [handleAuthSuccess], by simp [handleAuthSuccess]⟩
        · exact hs
  · intro net s hs
    unfold tick
    split
    · rename_i hauth
      split
      · exact hs
      · split
        · exact hs
        · split
          · exact ⟨by simp [hauth], fun _ => hs.2 hauth⟩
          · exact hs
    · exact hs
  · intro s
    exact ⟨by simp [reset, initialSession], by simp [reset, initialSession]⟩
  · intro s hs
    unfold currentRecord
    by_cases h : s.isAuthenticated = true
    · rw [if_pos h]
      exact ⟨fun _ => h, fun _ => hs.1.mp h⟩
    · rw [if_neg h]
      exact ⟨fun hh => by simp at hh, fun hh => absurd hh h⟩

/-- Claim C10, witness: the invariant holds after a successful login from the
initial state, and after a replacing tick on an authenticated session. -/
theorem session_invariant_preserved_witness :
    sessionInv (processLogin "alice" "1234" netOkPlain initialSession 7).session ∧
    sessionInv (tick netFresh sAuth).session :=
  ⟨session_invariant_preserved.2.1 "alice" "1234" netOkPlain initialSession 7
      session_invariant_preserved.1,
    session_invariant_preserved.2.2.1 netFresh sAuth ⟨by decide, by decide⟩⟩
